import Mathlib

/-!
# Verification of the shenfun-elasticity solver core

Shallow embedding of `src/Solver/solve_elastic_problem.py` and
`src/Solver/stresses.py`.  The spectral function-space library (shenfun) is an
external collaborator: its operations (basis construction, inner products,
block solves, projections, derivatives) appear here either as opaque term
descriptors, or as function parameters of the embedded routines.  Everything
the repository's own code does — input assertions, nondimensionalization of the
material constants, the boundary-condition flags, the branch structure of the
weak-form assembly, the inhomogeneous solve, and the index loops of the stress
post-processing — is embedded faithfully, line by line.
-/

set_option autoImplicit false

namespace ShenfunElasticity

/-! ## Python value model

The solvers and stress routines begin with `assert isinstance(...)` chains.
`PyVal` models just enough of Python's runtime value taxonomy to state them:
a Python `float` is distinct from an `int` (so `1` is not a `float`), and a
`tuple` is distinct from a `list`.  `obj cls` stands for any other object,
tagged with its class name (e.g. a shenfun `Function`). -/

inductive PyVal where
  | int (z : Int)
  | float (q : Rat)
  | str (s : String)
  | tuple (xs : List PyVal)
  | pylist (xs : List PyVal)
  | pynone
  | obj (cls : String)
deriving Repr

/-- `isinstance(v, float)`.  In Python an `int` is not an instance of `float`. -/
def PyVal.isFloat : PyVal → Bool
  | .float _ => true
  | _ => false

/-- `isinstance(v, int)`. -/
def PyVal.isInt : PyVal → Bool
  | .int _ => true
  | _ => false

/-- `isinstance(v, tuple)`. -/
def PyVal.isTuple : PyVal → Bool
  | .tuple _ => true
  | _ => false

/-- `isinstance(v, Function)`: a shenfun spectral `Function` object. -/
def PyVal.isFunction : PyVal → Bool
  | .obj cls => cls == "Function"
  | _ => false

/-- The elements of a Python `tuple` or `list`; other values have no entries. -/
def PyVal.entries : PyVal → List PyVal
  | .tuple xs => xs
  | .pylist xs => xs
  | _ => []

/-- Numeric value of a Python number, as used in arithmetic such as
`material_parameters[0]/nondim_mat_param`.  Non-numbers give 0 (the embedded
routines only reach this after the assertions have passed). -/
def PyVal.toRat : PyVal → Rat
  | .int z => (z : Rat)
  | .float q => q
  | _ => 0

/-! ## 1D bases and the two global flags

`FunctionSpace(N, family='legendre', bc=..., domain=...)` is collaborator
work; what the solver code itself does with the resulting basis objects is
inspect them: `basis.has_nonhomogeneous_bcs`, `isinstance(basis, ShenDirichlet)`
(Cauchy solver) and `isinstance(basis, ShenBiharmonic)` (gradient solver).
A `Basis` records exactly those observable attributes; the dim × dim grid of
bases built in the solver loops is the input `bases : List (List Basis)`. -/

inductive BasisKind where
  | shenDirichlet
  | shenBiharmonic
  | orthogonal
  | otherComposite (tag : String)
deriving DecidableEq, Repr

structure Basis where
  kind : BasisKind
  has_nonhomogeneous_bcs : Bool
deriving DecidableEq, Repr

/-- `only_dirichlet_bcs` as computed by `solve_cauchy_elasticity`
(lines 91–104): initialized `True`, cleared as soon as one basis is not a
`ShenDirichlet` instance; i.e. all bases in the grid are `ShenDirichlet`. -/
def only_dirichlet_bcs_cauchy (bases : List (List Basis)) : Bool :=
  bases.all fun row => row.all fun b => b.kind == BasisKind.shenDirichlet

/-- `only_dirichlet_bcs` as computed by `solve_gradient_elasticity`
(lines 331–343): all bases are `ShenBiharmonic` instances. -/
def only_dirichlet_bcs_gradient (bases : List (List Basis)) : Bool :=
  bases.all fun row => row.all fun b => b.kind == BasisKind.shenBiharmonic

/-- `nonhomogeneous_bcs` (both solvers): set as soon as one basis reports
`has_nonhomogeneous_bcs`. -/
def nonhomogeneous_bcs (bases : List (List Basis)) : Bool :=
  bases.any fun row => row.any fun b => b.has_nonhomogeneous_bcs

/-! ## Weak-form terms, Cauchy variant

Each `inner(...)` call of the assembly produces an opaque operator (shenfun
returns one matrix or a list of matrices; the code flattens those into the
running list).  At the granularity the spec speaks — one weak-form term per
`inner` call — the assembled list is a `List CauchyTerm`. -/

inductive CauchyTerm where
  /-- `inner(c*grad(u), grad(v))` — full gradient pairing. -/
  | gradGrad (c : Rat)
  /-- `inner(c*div(u), div(v))` — divergence pairing. -/
  | divDiv (c : Rat)
  /-- `inner(c*Dx(u[i], j), Dx(v[j], i))` — cross term for component pair. -/
  | cross (c : Rat) (i j : Nat)
deriving DecidableEq, Repr

/-- The `B` list of the `else` branch of `solve_cauchy_elasticity`
(lines 127–134): for `i in range(dim)`, `j in range(dim)`,
`inner(mu*Dx(u[i], j), Dx(v[j], i))`. -/
def cauchy_cross_terms (mu : Rat) (dim : Nat) : List CauchyTerm :=
  (List.range dim).flatMap fun i =>
    (List.range dim).map fun j => CauchyTerm.cross mu i j

/-- The operator list `matrices` assembled by `solve_cauchy_elasticity`
(lines 121–136).  `A = inner(mu*grad(u), grad(v))` always; then either
`A + B` with `B = inner((lambd+mu)*div(u), div(v))`, or
`A + B + C` with the cross terms and `C = inner(lambd*div(u), div(v))`. -/
def assemble_cauchy (lambd mu : Rat) (dim : Nat)
    (only_dirichlet : Bool) : List CauchyTerm :=
  let A := [CauchyTerm.gradGrad mu]
  if only_dirichlet then
    A ++ [CauchyTerm.divDiv (lambd + mu)]
  else
    A ++ cauchy_cross_terms mu dim ++ [CauchyTerm.divDiv lambd]

/-! ## Weak-form terms, gradient variant

`solve_gradient_elasticity` (lines 360–417) assembles, besides the λ, μ terms,
up to five higher-order blocks, each guarded by `if cj != 0.0`. -/

inductive GradTerm where
  /-- c1 block: `inner(c1*div(grad(u)), div(grad(v)))`. -/
  | lapLap (c : Rat)
  /-- c2 block: `inner(c2*div(grad(u)), grad(div(v)))`. -/
  | lapGradDiv (c : Rat)
  /-- c3 block: `inner(c3*grad(div(u)), grad(div(v)))`. -/
  | gradDivGradDiv (c : Rat)
  /-- c4 block: `inner(c4*Dx(Dx(u[i], j), k), Dx(Dx(v[i], j), k))`. -/
  | secondSame (c : Rat) (i j k : Nat)
  /-- c5 block: `inner(c5*Dx(Dx(u[j], i), k), Dx(Dx(v[i], j), k))`. -/
  | secondSwap (c : Rat) (i j k : Nat)
  /-- `inner(c*grad(u), grad(v))` — term `F`. -/
  | gradGrad (c : Rat)
  /-- `inner(c*div(u), div(v))` — term `G` (fast path) or `H`. -/
  | divDiv (c : Rat)
  /-- `inner(c*Dx(u[i], j), Dx(v[j], i))` — term `G` of the `else` branch. -/
  | cross (c : Rat) (i j : Nat)
deriving DecidableEq, Repr

/-- The `D` list (lines 381–390): triple loop over `(i, j, k)` appending the
c4 second-derivative term. -/
def grad_c4_terms (c4 : Rat) (dim : Nat) : List GradTerm :=
  (List.range dim).flatMap fun i =>
    (List.range dim).flatMap fun j =>
      (List.range dim).map fun k => GradTerm.secondSame c4 i j k

/-- The `E` list (lines 392–401): triple loop over `(i, j, k)` appending the
c5 second-derivative term with swapped leading indices. -/
def grad_c5_terms (c5 : Rat) (dim : Nat) : List GradTerm :=
  (List.range dim).flatMap fun i =>
    (List.range dim).flatMap fun j =>
      (List.range dim).map fun k => GradTerm.secondSwap c5 i j k

/-- The `G` list of the `else` branch (lines 408–415): cross terms over all
ordered component pairs. -/
def grad_cross_terms (mu : Rat) (dim : Nat) : List GradTerm :=
  (List.range dim).flatMap fun i =>
    (List.range dim).map fun j => GradTerm.cross mu i j

/-- The operator list `matrices` assembled by `solve_gradient_elasticity`
(lines 360–417).  Each higher-order block is assembled only when its
(nondimensionalized) constant compares unequal to `0.0`; the final list is
`A + B + C + D + E + F + G` on the pure-Dirichlet (biharmonic) path and
`A + B + C + D + E + F + G + H` otherwise. -/
def assemble_gradient (lambd mu c1 c2 c3 c4 c5 : Rat) (dim : Nat)
    (only_dirichlet : Bool) : List GradTerm :=
  let A := if c1 ≠ 0 then [GradTerm.lapLap c1] else []
  let B := if c2 ≠ 0 then [GradTerm.lapGradDiv c2] else []
  let C := if c3 ≠ 0 then [GradTerm.gradDivGradDiv c3] else []
  let D := if c4 ≠ 0 then grad_c4_terms c4 dim else []
  let E := if c5 ≠ 0 then grad_c5_terms c5 dim else []
  let F := [GradTerm.gradGrad mu]
  if only_dirichlet then
    A ++ B ++ C ++ D ++ E ++ F ++ [GradTerm.divDiv (lambd + mu)]
  else
    A ++ B ++ C ++ D ++ E ++ F ++ grad_cross_terms mu dim
      ++ [GradTerm.divDiv lambd]

/-- The λ, μ part of the gradient assembly: `F + G` (fast path) or
`F + G + H`.  Used to state that the assembled list is the concatenation of
the active higher-order blocks with the λ, μ terms. -/
def grad_lam_mu_terms (lambd mu : Rat) (dim : Nat)
    (only_dirichlet : Bool) : List GradTerm :=
  if only_dirichlet then
    [GradTerm.gradGrad mu, GradTerm.divDiv (lambd + mu)]
  else
    [GradTerm.gradGrad mu] ++ grad_cross_terms mu dim
      ++ [GradTerm.divDiv lambd]

/-- The higher-order part of the gradient assembly: the concatenation
`A ++ B ++ C ++ D ++ E` of the active c1..c5 blocks. -/
def grad_higher_order_terms (c1 c2 c3 c4 c5 : Rat) (dim : Nat) : List GradTerm :=
  (if c1 ≠ 0 then [GradTerm.lapLap c1] else [])
    ++ (if c2 ≠ 0 then [GradTerm.lapGradDiv c2] else [])
    ++ (if c3 ≠ 0 then [GradTerm.gradDivGradDiv c3] else [])
    ++ (if c4 ≠ 0 then grad_c4_terms c4 dim else [])
    ++ (if c5 ≠ 0 then grad_c5_terms c5 dim else [])

/-- Classifiers for the five higher-order blocks, used to state which terms
of the assembled list belong to which constant. -/
def GradTerm.isC1 : GradTerm → Bool
  | .lapLap _ => true
  | _ => false

def GradTerm.isC2 : GradTerm → Bool
  | .lapGradDiv _ => true
  | _ => false

def GradTerm.isC3 : GradTerm → Bool
  | .gradDivGradDiv _ => true
  | _ => false

def GradTerm.isC4 : GradTerm → Bool
  | .secondSame _ _ _ _ => true
  | _ => false

def GradTerm.isC5 : GradTerm → Bool
  | .secondSwap _ _ _ _ => true
  | _ => false

/-! ## Input validation

The assert blocks heading the two solvers (lines 19–29 and 253–263).  A
Python `assert` chain passes iff every clause holds, and the function body
only starts once the whole chain has passed. -/

/-- `v is None`. -/
def PyVal.isNone : PyVal → Bool
  | .pynone => true
  | _ => false

/-- The assert block of `solve_cauchy_elasticity` (lines 19–29):
`material_parameters` must be a tuple of length exactly 2, the three
nondimensionalization references must be Python floats. -/
def validate_cauchy_inputs (N dom boundary_conditions body_forces
    material_parameters nondim_disp nondim_length nondim_mat_param : PyVal)
    (compute_error : Bool) (u_ana : PyVal) : Bool :=
  N.isInt && dom.isTuple && boundary_conditions.isTuple && body_forces.isTuple
    && nondim_disp.isFloat && nondim_length.isFloat && nondim_mat_param.isFloat
    && material_parameters.isTuple
    && (material_parameters.entries.length == 2)
    && (!compute_error || u_ana.isNone || u_ana.isTuple)

/-- The assert block of `solve_gradient_elasticity` (lines 253–263): same as
the Cauchy solver except `material_parameters` must have length exactly 7. -/
def validate_gradient_inputs (N dom boundary_conditions body_forces
    material_parameters nondim_disp nondim_length nondim_mat_param : PyVal)
    (compute_error : Bool) (u_ana : PyVal) : Bool :=
  N.isInt && dom.isTuple && boundary_conditions.isTuple && body_forces.isTuple
    && nondim_disp.isFloat && nondim_length.isFloat && nondim_mat_param.isFloat
    && material_parameters.isTuple
    && (material_parameters.entries.length == 7)
    && (!compute_error || u_ana.isNone || u_ana.isTuple)

/-! ## The block solve

Lines 142–170 (Cauchy) and 422–449 (gradient) are textually identical up to
the term type.  The shenfun collaborator supplies `extract_bc_matrices`
(which removes the boundary matrices from the operator list and returns
them — modelled by returning the pair (boundary matrices, remaining
homogeneous matrices)), `BlockMatrix(...).solve`, `BlockMatrix(...).matvec`,
and `Function(V).set_boundary_dofs()` (the field holding only the prescribed
boundary coefficients, all free coefficients zero). -/

/-- The solve branch shared by both solvers.  In the nonhomogeneous case:
`bc_mats = extract_bc_matrices([matrices])`, `uh_hat` is the boundary-dof
field, `b_add = BM.matvec(-uh_hat, b_add)`, `u_hat = M.solve(b + b_add)`,
`u_hat += uh_hat`.  Otherwise one direct solve. -/
def solve_linear_system {Mat F : Type} [Add F] [Neg F]
    (extract_bc_matrices : List Mat → List Mat × List Mat)
    (block_solve : List Mat → F → F)
    (block_matvec : List Mat → F → F)
    (boundary_dofs_field : F)
    (matrices : List Mat) (b : F) (nonhomogeneous : Bool) : F :=
  if nonhomogeneous then
    let bc_mats := (extract_bc_matrices matrices).1
    let hom_mats := (extract_bc_matrices matrices).2
    let uh_hat := boundary_dofs_field
    let b_add := block_matvec bc_mats (-uh_hat)
    let u_hat := block_solve hom_mats (b + b_add)
    u_hat + uh_hat
  else
    block_solve matrices b

/-- The collaborator operations and collaborator-produced data a solver call
consumes: the dim × dim grid of 1D bases built by `FunctionSpace`, the
right-hand side `b = inner(v, body_forces_quad)`, and the block-matrix
operations. -/
structure Collaborator (Mat F : Type) where
  bases : List (List Basis)
  rhs : F
  extract_bc_matrices : List Mat → List Mat × List Mat
  block_solve : List Mat → F → F
  block_matvec : List Mat → F → F
  boundary_dofs_field : F

/-! ## The two solvers

The embedded solvers run the assert chain first (returning an
`AssertionError` before any nondimensionalization, space construction or
assembly takes place otherwise), nondimensionalize the material constants,
compute the two flags from the basis grid, assemble the operator list, run
the block solve, and scale the returned coefficients by `nondim_disp`
(`u *= nondim_disp`; the intermediate copy of the coefficients onto the
non-rescaled space `V_dim` is coefficient-identical, lines 176–190). -/

/-- `solve_cauchy_elasticity` (lines 14–246, omitting plotting and error
logging, which do not affect the returned field). -/
def solve_cauchy_elasticity {F : Type} [AddCommGroup F] [Module Rat F]
    (collab : Collaborator CauchyTerm F)
    (N dom boundary_conditions body_forces material_parameters
      nondim_disp nondim_length nondim_mat_param : PyVal)
    (compute_error : Bool) (u_ana : PyVal) : Except String F :=
  if validate_cauchy_inputs N dom boundary_conditions body_forces
      material_parameters nondim_disp nondim_length nondim_mat_param
      compute_error u_ana then
    let dim := dom.entries.length
    let lambd := (material_parameters.entries.getD 0 PyVal.pynone).toRat
      / nondim_mat_param.toRat
    let mu := (material_parameters.entries.getD 1 PyVal.pynone).toRat
      / nondim_mat_param.toRat
    let matrices := assemble_cauchy lambd mu dim
      (only_dirichlet_bcs_cauchy collab.bases)
    let u_hat := solve_linear_system collab.extract_bc_matrices
      collab.block_solve collab.block_matvec collab.boundary_dofs_field
      matrices collab.rhs (nonhomogeneous_bcs collab.bases)
    Except.ok (nondim_disp.toRat • u_hat)
  else
    Except.error "AssertionError"

/-- `solve_gradient_elasticity` (lines 248–523, same conventions).  The five
higher-order constants are additionally divided by `nondim_length**2`. -/
def solve_gradient_elasticity {F : Type} [AddCommGroup F] [Module Rat F]
    (collab : Collaborator GradTerm F)
    (N dom boundary_conditions body_forces material_parameters
      nondim_disp nondim_length nondim_mat_param : PyVal)
    (compute_error : Bool) (u_ana : PyVal) : Except String F :=
  if validate_gradient_inputs N dom boundary_conditions body_forces
      material_parameters nondim_disp nondim_length nondim_mat_param
      compute_error u_ana then
    let dim := dom.entries.length
    let ndm := nondim_mat_param.toRat
    let ndl := nondim_length.toRat
    let lambd := (material_parameters.entries.getD 0 PyVal.pynone).toRat / ndm
    let mu := (material_parameters.entries.getD 1 PyVal.pynone).toRat / ndm
    let c1 := (material_parameters.entries.getD 2 PyVal.pynone).toRat / ndm / ndl ^ 2
    let c2 := (material_parameters.entries.getD 3 PyVal.pynone).toRat / ndm / ndl ^ 2
    let c3 := (material_parameters.entries.getD 4 PyVal.pynone).toRat / ndm / ndl ^ 2
    let c4 := (material_parameters.entries.getD 5 PyVal.pynone).toRat / ndm / ndl ^ 2
    let c5 := (material_parameters.entries.getD 6 PyVal.pynone).toRat / ndm / ndl ^ 2
    let matrices := assemble_gradient lambd mu c1 c2 c3 c4 c5 dim
      (only_dirichlet_bcs_gradient collab.bases)
    let u_hat := solve_linear_system collab.extract_bc_matrices
      collab.block_solve collab.block_matvec collab.boundary_dofs_field
      matrices collab.rhs (nonhomogeneous_bcs collab.bases)
    Except.ok (nondim_disp.toRat • u_hat)
  else
    Except.error "AssertionError"

/-! ## The no-bc companion vector space

Both solvers build the quadrature space for the body forces as
`T_none = TensorProductSpace(comm, tuple(tens_space_no_bcs))` over one
unconstrained 1D basis per axis, and then `V_none = VectorSpace([T_none,
T_none])` — a hard-coded two-component vector space (lines 109–113 and
348–352).  A space is modelled by the list of kinds of its 1D bases; a
vector space by the list of its component spaces. -/

/-- `T_none`: one no-bc 1D basis per axis of the dimensionless domain. -/
def t_none_bases (dim : Nat) : List BasisKind :=
  (List.range dim).map fun _ => BasisKind.orthogonal

/-- `V_none = VectorSpace([T_none, T_none])` in `solve_cauchy_elasticity`
(line 113). -/
def v_none_spaces_cauchy (dim : Nat) : List (List BasisKind) :=
  [t_none_bases dim, t_none_bases dim]

/-- `V_none = VectorSpace([T_none, T_none])` in `solve_gradient_elasticity`
(line 352). -/
def v_none_spaces_gradient (dim : Nat) : List (List BasisKind) :=
  [t_none_bases dim, t_none_bases dim]

/-! ## Stress post-processing (`src/Solver/stresses.py`)

Spectral scalar fields form a module `R` over the rationals (shenfun
`Function`s support addition, subtraction and scaling by Python floats,
entrywise on their coefficient arrays); spaces form a type `S`.  The
collaborator supplies the derivative and projection operators. -/

/-- The shenfun operations the stress routines call on fields and spaces:
`Dx(f, axis)`, `Dx(f, axis, 2)`, `project(expr, space)` and
`space.get_orthogonal()`. -/
structure FieldOps (R S : Type) where
  dx : R → Nat → R
  dx2 : R → Nat → R
  proj : R → S → R
  get_orthogonal : S → S

/-- The space `cauchy_stresses` projects onto (line 28):
`T_none = u_hat[0].function_space().get_orthogonal()`. -/
def cauchy_T_none {S : Type} (get_orthogonal : S → S) (u_space : S) : S :=
  get_orthogonal u_space

/-- The space `hyper_stresses` projects onto (line 87):
`T_none = u_hat[0].function_space()` — the displacement field's own space,
with no `get_orthogonal` call. -/
def hyper_T_none {S : Type} (u_space : S) : S :=
  u_space

/-- Displacement gradient `H[i][j] = project(Dx(u_hat[i], j), T_none)`
(lines 35–38 of `cauchy_stresses`). -/
def cauchy_H {R S : Type} (ops : FieldOps R S) (u_space : S)
    (u : Nat → R) (i j : Nat) : R :=
  ops.proj (ops.dx (u i) j) (cauchy_T_none ops.get_orthogonal u_space)

/-- Linear strain `E[i][j] = 0.5 * (H[i][j] + H[j][i])` (lines 41–44). -/
def cauchy_E {R S : Type} [AddCommGroup R] [Module Rat R]
    (ops : FieldOps R S) (u_space : S) (u : Nat → R) (i j : Nat) : R :=
  ((1 : Rat)/2) • (cauchy_H ops u_space u i j + cauchy_H ops u_space u j i)

/-- Trace `trE = 0.; for i in range(dim): trE += E[i][i]` (lines 47–49). -/
def cauchy_trE {R S : Type} [AddCommGroup R] [Module Rat R]
    (ops : FieldOps R S) (u_space : S) (u : Nat → R) (dim : Nat) : R :=
  ((List.range dim).map fun i => cauchy_E ops u_space u i i).sum

/-- Cauchy stress `T[i][j] = 2.0*mu*E[i][j]`, plus `lambd*trE` on the
diagonal (lines 52–57). -/
def cauchy_T {R S : Type} [AddCommGroup R] [Module Rat R]
    (ops : FieldOps R S) (u_space : S) (u : Nat → R)
    (lambd mu : Rat) (dim i j : Nat) : R :=
  (2 * mu) • cauchy_E ops u_space u i j
    + (if i = j then lambd • cauchy_trE ops u_space u dim else 0)

/-- `cauchy_stresses` with its assert block (lines 20–25): the material
parameters must be a tuple whose every entry is a Python float, of length
exactly 2, and `u_hat` must be a shenfun `Function`. -/
def cauchy_stresses_checked {R S : Type} [AddCommGroup R] [Module Rat R]
    (ops : FieldOps R S) (u_space : S) (u : Nat → R) (dim : Nat)
    (material_parameters u_py : PyVal) : Except String (Nat → Nat → R) :=
  if material_parameters.isTuple
      && material_parameters.entries.all (fun v => v.isFloat)
      && (material_parameters.entries.length == 2)
      && u_py.isFunction then
    Except.ok (cauchy_T ops u_space u
      (material_parameters.entries.getD 0 PyVal.pynone).toRat
      (material_parameters.entries.getD 1 PyVal.pynone).toRat dim)
  else
    Except.error "AssertionError"

/-- `Laplace[i] += project(Dx(u_hat[i], j, 2), T_none)` over all axes
(lines 98–101 of `hyper_stresses`); built on `hyper_T_none u_space`. -/
def hyper_Laplace {R S : Type} [AddCommGroup R] [Module Rat R]
    (ops : FieldOps R S) (u_space : S) (u : Nat → R) (dim i : Nat) : R :=
  ((List.range dim).map fun j =>
    ops.proj (ops.dx2 (u i) j) (hyper_T_none u_space)).sum

/-- `GradDiv[i] += project(Dx(Dx(u_hat[j], j), i), T_none)` over all axes
(lines 104–107). -/
def hyper_GradDiv {R S : Type} [AddCommGroup R] [Module Rat R]
    (ops : FieldOps R S) (u_space : S) (u : Nat → R) (dim i : Nat) : R :=
  ((List.range dim).map fun j =>
    ops.proj (ops.dx (ops.dx (u j) j) i) (hyper_T_none u_space)).sum

/-- Hyper stress `T[i][j][k]` (lines 110–131): starts at `0.` and
accumulates, each contribution gated on its constant comparing unequal to
`0.` — half-weighted c2/c3 pieces when `i==j` or `i==k`, the c1 Laplacian
when `j==k`, the c4 second derivative, and the symmetrized c5 pair. -/
def hyper_T {R S : Type} [AddCommGroup R] [Module Rat R]
    (ops : FieldOps R S) (u_space : S) (u : Nat → R)
    (c1 c2 c3 c4 c5 : Rat) (dim i j k : Nat) : R :=
  (if i = j then
      (if c2 ≠ 0 then ((1 : Rat)/2 * c2) • hyper_Laplace ops u_space u dim k else 0)
        + (if c3 ≠ 0 then ((1 : Rat)/2 * c3) • hyper_GradDiv ops u_space u dim k else 0)
    else 0)
  + (if i = k then
      (if c2 ≠ 0 then ((1 : Rat)/2 * c2) • hyper_Laplace ops u_space u dim j else 0)
        + (if c3 ≠ 0 then ((1 : Rat)/2 * c3) • hyper_GradDiv ops u_space u dim j else 0)
    else 0)
  + (if j = k then
      (if c1 ≠ 0 then c1 • hyper_Laplace ops u_space u dim i else 0)
    else 0)
  + (if c4 ≠ 0 then
      ops.proj (c4 • ops.dx (ops.dx (u i) j) k) (hyper_T_none u_space)
    else 0)
  + (if c5 ≠ 0 then
      ops.proj (((1 : Rat)/2 * c5) • ops.dx (ops.dx (u j) i) k) (hyper_T_none u_space)
        + ops.proj (((1 : Rat)/2 * c5) • ops.dx (ops.dx (u k) i) j) (hyper_T_none u_space)
    else 0)

/-- `hyper_stresses` with its assert block (lines 79–84): tuple of floats of
length exactly 5, and a `Function` displacement. -/
def hyper_stresses_checked {R S : Type} [AddCommGroup R] [Module Rat R]
    (ops : FieldOps R S) (u_space : S) (u : Nat → R) (dim : Nat)
    (material_parameters u_py : PyVal) :
    Except String (Nat → Nat → Nat → R) :=
  if material_parameters.isTuple
      && material_parameters.entries.all (fun v => v.isFloat)
      && (material_parameters.entries.length == 5)
      && u_py.isFunction then
    Except.ok (hyper_T ops u_space u
      (material_parameters.entries.getD 0 PyVal.pynone).toRat
      (material_parameters.entries.getD 1 PyVal.pynone).toRat
      (material_parameters.entries.getD 2 PyVal.pynone).toRat
      (material_parameters.entries.getD 3 PyVal.pynone).toRat
      (material_parameters.entries.getD 4 PyVal.pynone).toRat dim)
  else
    Except.error "AssertionError"

/-! ## Traction vector (`traction_vector_gradient`, lines 134–187)

The loops over `(k, l)` run row-major; `divnT3` accumulates from `0.` and
`divtT3` accumulates downward from `divT3.copy()` (a shallow copy: the inner
rows are shared with `divT3`, but `divT3` is never read afterwards, so the
final values are the initial `divT3` minus the accumulated sum). -/

/-- `divT3[i][j] += project(Dx(T3[i][j][k], k), T_none)` (lines 164–168). -/
def divT3 {R S : Type} [AddCommGroup R] [Module Rat R]
    (ops : FieldOps R S) (t_space : S) (T3 : Nat → Nat → Nat → R)
    (dim i j : Nat) : R :=
  ((List.range dim).map fun k => ops.proj (ops.dx (T3 i j k) k) t_space).sum

/-- The row-major `(k, l)` index pairs of the nested loops. -/
def loop_pairs (dim : Nat) : List (Nat × Nat) :=
  (List.range dim).flatMap fun k =>
    (List.range dim).map fun l => (k, l)

/-- One `(k, l)` contribution
`(project(Dx(T3[i][j][k], l), T_none))*n[k]*n[l]` (lines 177–178). -/
def normal_contrib {R S : Type} [AddCommGroup R] [Module Rat R]
    (ops : FieldOps R S) (t_space : S) (T3 : Nat → Nat → Nat → R)
    (n : Nat → Rat) (i j : Nat) (kl : Nat × Nat) : R :=
  (n kl.1 * n kl.2) • ops.proj (ops.dx (T3 i j kl.1) kl.2) t_space

/-- `divnT3[i][j]`: accumulated upward from `0.` (lines 171, 177). -/
def divnT3 {R S : Type} [AddCommGroup R] [Module Rat R]
    (ops : FieldOps R S) (t_space : S) (T3 : Nat → Nat → Nat → R)
    (n : Nat → Rat) (dim i j : Nat) : R :=
  (loop_pairs dim).foldl
    (fun acc kl => acc + normal_contrib ops t_space T3 n i j kl) 0

/-- `divtT3[i][j]`: accumulated downward from `divT3.copy()`
(lines 172, 178). -/
def divtT3 {R S : Type} [AddCommGroup R] [Module Rat R]
    (ops : FieldOps R S) (t_space : S) (T3 : Nat → Nat → Nat → R)
    (n : Nat → Rat) (dim i j : Nat) : R :=
  (loop_pairs dim).foldl
    (fun acc kl => acc - normal_contrib ops t_space T3 n i j kl)
    (divT3 ops t_space T3 dim i j)

/-- The traction component
`t[i] += (T2[i][j] - divnT3[i][j] - 2*divtT3[i][j])*n[j]` summed over `j`,
coefficientwise over the `[k][m]` grid (lines 182–186). -/
def traction_vector_gradient {R S : Type} [AddCommGroup R] [Module Rat R]
    (ops : FieldOps R S) (t_space : S) (T2 : Nat → Nat → R)
    (T3 : Nat → Nat → Nat → R) (n : Nat → Rat) (dim i : Nat) : R :=
  ((List.range dim).map fun j =>
    (n j) • (T2 i j - divnT3 ops t_space T3 n dim i j
      - (2 : Rat) • divtT3 ops t_space T3 n dim i j)).sum

/-- The vector space the traction lives on:
`t = Function(VectorSpace([T_none, T_none]))` (line 181) — again a
hard-coded two-component vector space. -/
def traction_vector_space {S : Type} (t_space : S) : List S :=
  [t_space, t_space]

/-! ## General lemmas -/

theorem foldl_add_eq_sum {R α : Type} [AddCommGroup R] (f : α → R) :
    ∀ (l : List α) (init : R),
      l.foldl (fun acc x => acc + f x) init = init + (l.map f).sum
  | [], init => by simp
  | a :: l, init => by
    rw [List.foldl_cons, foldl_add_eq_sum f l (init + f a)]
    simp [add_assoc]

theorem foldl_sub_eq_sum {R α : Type} [AddCommGroup R] (f : α → R) :
    ∀ (l : List α) (init : R),
      l.foldl (fun acc x => acc - f x) init = init - (l.map f).sum
  | [], init => by simp
  | a :: l, init => by
    rw [List.foldl_cons, foldl_sub_eq_sum f l (init - f a)]
    simp [sub_sub]

theorem grad_c4_terms_filter_eq_nil (p : GradTerm → Bool) (c : Rat) (dim : Nat)
    (h : ∀ i j k, p (GradTerm.secondSame c i j k) = false) :
    (grad_c4_terms c dim).filter p = [] := by
  apply List.filter_eq_nil_iff.mpr
  intro a ha
  simp only [grad_c4_terms, List.mem_flatMap, List.mem_map, List.mem_range] at ha
  obtain ⟨i, _, j, _, k, _, rfl⟩ := ha
  simp [h]

theorem grad_c4_terms_filter_eq_self (p : GradTerm → Bool) (c : Rat) (dim : Nat)
    (h : ∀ i j k, p (GradTerm.secondSame c i j k) = true) :
    (grad_c4_terms c dim).filter p = grad_c4_terms c dim := by
  apply List.filter_eq_self.mpr
  intro a ha
  simp only [grad_c4_terms, List.mem_flatMap, List.mem_map, List.mem_range] at ha
  obtain ⟨i, _, j, _, k, _, rfl⟩ := ha
  simp [h]

theorem grad_c5_terms_filter_eq_nil (p : GradTerm → Bool) (c : Rat) (dim : Nat)
    (h : ∀ i j k, p (GradTerm.secondSwap c i j k) = false) :
    (grad_c5_terms c dim).filter p = [] := by
  apply List.filter_eq_nil_iff.mpr
  intro a ha
  simp only [grad_c5_terms, List.mem_flatMap, List.mem_map, List.mem_range] at ha
  obtain ⟨i, _, j, _, k, _, rfl⟩ := ha
  simp [h]

theorem grad_c5_terms_filter_eq_self (p : GradTerm → Bool) (c : Rat) (dim : Nat)
    (h : ∀ i j k, p (GradTerm.secondSwap c i j k) = true) :
    (grad_c5_terms c dim).filter p = grad_c5_terms c dim := by
  apply List.filter_eq_self.mpr
  intro a ha
  simp only [grad_c5_terms, List.mem_flatMap, List.mem_map, List.mem_range] at ha
  obtain ⟨i, _, j, _, k, _, rfl⟩ := ha
  simp [h]

theorem grad_cross_terms_filter_eq_nil (p : GradTerm → Bool) (c : Rat) (dim : Nat)
    (h : ∀ i j, p (GradTerm.cross c i j) = false) :
    (grad_cross_terms c dim).filter p = [] := by
  apply List.filter_eq_nil_iff.mpr
  intro a ha
  simp only [grad_cross_terms, List.mem_flatMap, List.mem_map, List.mem_range] at ha
  obtain ⟨i, _, j, _, rfl⟩ := ha
  simp [h]

theorem grad_lam_mu_terms_filter_eq_nil (p : GradTerm → Bool)
    (lambd mu : Rat) (dim : Nat) (od : Bool)
    (hg : ∀ c, p (GradTerm.gradGrad c) = false)
    (hd : ∀ c, p (GradTerm.divDiv c) = false)
    (hx : ∀ c i j, p (GradTerm.cross c i j) = false) :
    (grad_lam_mu_terms lambd mu dim od).filter p = [] := by
  cases od with
  | true => simp [grad_lam_mu_terms, hg, hd]
  | false =>
    simp [grad_lam_mu_terms, List.filter_append, hg, hd,
      grad_cross_terms_filter_eq_nil p mu dim (hx mu)]

theorem assemble_gradient_split (lambd mu c1 c2 c3 c4 c5 : Rat) (dim : Nat)
    (od : Bool) :
    assemble_gradient lambd mu c1 c2 c3 c4 c5 dim od
      = grad_higher_order_terms c1 c2 c3 c4 c5 dim
          ++ grad_lam_mu_terms lambd mu dim od := by
  cases od <;>
    simp [assemble_gradient, grad_higher_order_terms, grad_lam_mu_terms,
      List.append_assoc]

theorem grad_higher_filter_isC1 (c1 c2 c3 c4 c5 : Rat) (dim : Nat) :
    (grad_higher_order_terms c1 c2 c3 c4 c5 dim).filter GradTerm.isC1
      = if c1 ≠ 0 then [GradTerm.lapLap c1] else [] := by
  simp only [grad_higher_order_terms, List.filter_append]
  split_ifs <;>
    simp [GradTerm.isC1,
      grad_c4_terms_filter_eq_nil GradTerm.isC1 c4 dim (fun _ _ _ => rfl),
      grad_c5_terms_filter_eq_nil GradTerm.isC1 c5 dim (fun _ _ _ => rfl)]

theorem grad_higher_filter_isC2 (c1 c2 c3 c4 c5 : Rat) (dim : Nat) :
    (grad_higher_order_terms c1 c2 c3 c4 c5 dim).filter GradTerm.isC2
      = if c2 ≠ 0 then [GradTerm.lapGradDiv c2] else [] := by
  simp only [grad_higher_order_terms, List.filter_append]
  split_ifs <;>
    simp [GradTerm.isC2,
      grad_c4_terms_filter_eq_nil GradTerm.isC2 c4 dim (fun _ _ _ => rfl),
      grad_c5_terms_filter_eq_nil GradTerm.isC2 c5 dim (fun _ _ _ => rfl)]

theorem grad_higher_filter_isC3 (c1 c2 c3 c4 c5 : Rat) (dim : Nat) :
    (grad_higher_order_terms c1 c2 c3 c4 c5 dim).filter GradTerm.isC3
      = if c3 ≠ 0 then [GradTerm.gradDivGradDiv c3] else [] := by
  simp only [grad_higher_order_terms, List.filter_append]
  split_ifs <;>
    simp [GradTerm.isC3,
      grad_c4_terms_filter_eq_nil GradTerm.isC3 c4 dim (fun _ _ _ => rfl),
      grad_c5_terms_filter_eq_nil GradTerm.isC3 c5 dim (fun _ _ _ => rfl)]

theorem grad_higher_filter_isC4 (c1 c2 c3 c4 c5 : Rat) (dim : Nat) :
    (grad_higher_order_terms c1 c2 c3 c4 c5 dim).filter GradTerm.isC4
      = if c4 ≠ 0 then grad_c4_terms c4 dim else [] := by
  simp only [grad_higher_order_terms, List.filter_append]
  split_ifs <;>
    simp [GradTerm.isC4,
      grad_c4_terms_filter_eq_self GradTerm.isC4 c4 dim (fun _ _ _ => rfl),
      grad_c5_terms_filter_eq_nil GradTerm.isC4 c5 dim (fun _ _ _ => rfl)]

theorem grad_higher_filter_isC5 (c1 c2 c3 c4 c5 : Rat) (dim : Nat) :
    (grad_higher_order_terms c1 c2 c3 c4 c5 dim).filter GradTerm.isC5
      = if c5 ≠ 0 then grad_c5_terms c5 dim else [] := by
  simp only [grad_higher_order_terms, List.filter_append]
  split_ifs <;>
    simp [GradTerm.isC5,
      grad_c5_terms_filter_eq_self GradTerm.isC5 c5 dim (fun _ _ _ => rfl),
      grad_c4_terms_filter_eq_nil GradTerm.isC5 c4 dim (fun _ _ _ => rfl)]

/-! ## Claim C1 -/

/-- C1: the Cauchy operator list always contains the full-gradient term
`inner(mu*grad(u), grad(v))`; when every 1D basis of the solution space is a
plain `ShenDirichlet` basis (`only_dirichlet_bcs` true) the final list is
exactly that term plus `inner((lambd+mu)*div(u), div(v))`; otherwise it is
that term plus the cross term `inner(mu*Dx(u[i], j), Dx(v[j], i))` for every
ordered component pair `(i, j)` plus `inner(lambd*div(u), div(v))`. -/
theorem cauchy_assembly_spec (lambd mu : Rat) (dim : Nat)
    (bases : List (List Basis)) :
    CauchyTerm.gradGrad mu ∈
        assemble_cauchy lambd mu dim (only_dirichlet_bcs_cauchy bases)
    ∧ (only_dirichlet_bcs_cauchy bases = true →
        assemble_cauchy lambd mu dim (only_dirichlet_bcs_cauchy bases)
          = [CauchyTerm.gradGrad mu, CauchyTerm.divDiv (lambd + mu)])
    ∧ (only_dirichlet_bcs_cauchy bases = false →
        assemble_cauchy lambd mu dim (only_dirichlet_bcs_cauchy bases)
          = [CauchyTerm.gradGrad mu] ++ cauchy_cross_terms mu dim
              ++ [CauchyTerm.divDiv lambd])
    ∧ (∀ i j : Nat, i < dim → j < dim →
        CauchyTerm.cross mu i j ∈ cauchy_cross_terms mu dim) := by
  refine ⟨?_, ?_, ?_, ?_⟩
  · cases h : only_dirichlet_bcs_cauchy bases <;> simp [assemble_cauchy]
  · intro h
    rw [h]
    simp [assemble_cauchy]
  · intro h
    rw [h]
    simp [assemble_cauchy]
  · intro i j hi hj
    simp only [cauchy_cross_terms, List.mem_flatMap, List.mem_map,
      List.mem_range]
    exact ⟨i, hi, j, hj, rfl⟩

/-- Witness for C1: the two branches and the cross-term membership at
concrete inputs (an all-Dirichlet 2 × 2 basis grid, and a grid with one
orthogonal basis). -/
theorem cauchy_assembly_spec_witness :
    assemble_cauchy 3 5 2 (only_dirichlet_bcs_cauchy
        [[⟨BasisKind.shenDirichlet, false⟩, ⟨BasisKind.shenDirichlet, false⟩],
         [⟨BasisKind.shenDirichlet, false⟩, ⟨BasisKind.shenDirichlet, false⟩]])
      = [CauchyTerm.gradGrad 5, CauchyTerm.divDiv (3 + 5)]
    ∧ assemble_cauchy 3 5 2 (only_dirichlet_bcs_cauchy
        [[⟨BasisKind.shenDirichlet, false⟩, ⟨BasisKind.orthogonal, false⟩]])
      = [CauchyTerm.gradGrad 5] ++ cauchy_cross_terms 5 2
          ++ [CauchyTerm.divDiv 3]
    ∧ CauchyTerm.cross 5 1 0 ∈ cauchy_cross_terms 5 2 :=
  ⟨(cauchy_assembly_spec 3 5 2 _).2.1 (by decide),
   (cauchy_assembly_spec 3 5 2 _).2.2.1 (by decide),
   (cauchy_assembly_spec 3 5 2
      [[⟨BasisKind.shenDirichlet, false⟩, ⟨BasisKind.orthogonal, false⟩]]
    ).2.2.2 1 0 (by decide) (by decide)⟩

/-! ## Claim C2 -/

/-- C2: in the gradient assembly, each higher-order constant that is exactly
zero after nondimensionalization contributes no operator at all; each
nonzero constant contributes exactly its block; and the final list is the
concatenation of the active higher-order blocks with the λ, μ terms. -/
theorem gradient_assembly_spec (lambd mu c1 c2 c3 c4 c5 : Rat) (dim : Nat)
    (od : Bool) :
    ((c1 = 0 → (assemble_gradient lambd mu c1 c2 c3 c4 c5 dim od).filter
        GradTerm.isC1 = [])
      ∧ (c1 ≠ 0 → (assemble_gradient lambd mu c1 c2 c3 c4 c5 dim od).filter
        GradTerm.isC1 = [GradTerm.lapLap c1]))
    ∧ ((c2 = 0 → (assemble_gradient lambd mu c1 c2 c3 c4 c5 dim od).filter
        GradTerm.isC2 = [])
      ∧ (c2 ≠ 0 → (assemble_gradient lambd mu c1 c2 c3 c4 c5 dim od).filter
        GradTerm.isC2 = [GradTerm.lapGradDiv c2]))
    ∧ ((c3 = 0 → (assemble_gradient lambd mu c1 c2 c3 c4 c5 dim od).filter
        GradTerm.isC3 = [])
      ∧ (c3 ≠ 0 → (assemble_gradient lambd mu c1 c2 c3 c4 c5 dim od).filter
        GradTerm.isC3 = [GradTerm.gradDivGradDiv c3]))
    ∧ ((c4 = 0 → (assemble_gradient lambd mu c1 c2 c3 c4 c5 dim od).filter
        GradTerm.isC4 = [])
      ∧ (c4 ≠ 0 → (assemble_gradient lambd mu c1 c2 c3 c4 c5 dim od).filter
        GradTerm.isC4 = grad_c4_terms c4 dim))
    ∧ ((c5 = 0 → (assemble_gradient lambd mu c1 c2 c3 c4 c5 dim od).filter
        GradTerm.isC5 = [])
      ∧ (c5 ≠ 0 → (assemble_gradient lambd mu c1 c2 c3 c4 c5 dim od).filter
        GradTerm.isC5 = grad_c5_terms c5 dim))
    ∧ assemble_gradient lambd mu c1 c2 c3 c4 c5 dim od
        = grad_higher_order_terms c1 c2 c3 c4 c5 dim
            ++ grad_lam_mu_terms lambd mu dim od := by
  have hsplit := assemble_gradient_split lambd mu c1 c2 c3 c4 c5 dim od
  have hmu1 := grad_lam_mu_terms_filter_eq_nil GradTerm.isC1 lambd mu dim od
    (fun _ => rfl) (fun _ => rfl) (fun _ _ _ => rfl)
  have hmu2 := grad_lam_mu_terms_filter_eq_nil GradTerm.isC2 lambd mu dim od
    (fun _ => rfl) (fun _ => rfl) (fun _ _ _ => rfl)
  have hmu3 := grad_lam_mu_terms_filter_eq_nil GradTerm.isC3 lambd mu dim od
    (fun _ => rfl) (fun _ => rfl) (fun _ _ _ => rfl)
  have hmu4 := grad_lam_mu_terms_filter_eq_nil GradTerm.isC4 lambd mu dim od
    (fun _ => rfl) (fun _ => rfl) (fun _ _ _ => rfl)
  have hmu5 := grad_lam_mu_terms_filter_eq_nil GradTerm.isC5 lambd mu dim od
    (fun _ => rfl) (fun _ => rfl) (fun _ _ _ => rfl)
  refine ⟨⟨?_, ?_⟩, ⟨?_, ?_⟩, ⟨?_, ?_⟩, ⟨?_, ?_⟩, ⟨?_, ?_⟩, hsplit⟩ <;>
    intro h <;>
    rw [hsplit, List.filter_append] <;>
    simp [grad_higher_filter_isC1, grad_higher_filter_isC2,
      grad_higher_filter_isC3, grad_higher_filter_isC4,
      grad_higher_filter_isC5, hmu1, hmu2, hmu3, hmu4, hmu5, h]

/-- Witness for C2 at concrete inputs: c1 = 0, c2 = 7 ≠ 0, c3 = 0,
c4 = 2 ≠ 0, c5 = 0, so some blocks are omitted and some assembled. -/
theorem gradient_assembly_spec_witness :
    ((assemble_gradient 3 5 0 7 0 2 0 2 false).filter GradTerm.isC1 = [])
    ∧ ((assemble_gradient 3 5 0 7 0 2 0 2 false).filter GradTerm.isC2
        = [GradTerm.lapGradDiv 7])
    ∧ ((assemble_gradient 3 5 0 7 0 2 0 2 false).filter GradTerm.isC3 = [])
    ∧ ((assemble_gradient 3 5 0 7 0 2 0 2 false).filter GradTerm.isC4
        = grad_c4_terms 2 2)
    ∧ ((assemble_gradient 3 5 0 7 0 2 0 2 false).filter GradTerm.isC5 = [])
    ∧ assemble_gradient 3 5 0 7 0 2 0 2 false
        = grad_higher_order_terms 0 7 0 2 0 2
            ++ grad_lam_mu_terms 3 5 2 false :=
  ⟨(gradient_assembly_spec 3 5 0 7 0 2 0 2 false).1.1 rfl,
   (gradient_assembly_spec 3 5 0 7 0 2 0 2 false).2.1.2 (by norm_num),
   (gradient_assembly_spec 3 5 0 7 0 2 0 2 false).2.2.1.1 rfl,
   (gradient_assembly_spec 3 5 0 7 0 2 0 2 false).2.2.2.1.2 (by norm_num),
   (gradient_assembly_spec 3 5 0 7 0 2 0 2 false).2.2.2.2.1.1 rfl,
   (gradient_assembly_spec 3 5 0 7 0 2 0 2 false).2.2.2.2.2⟩

/-! ## Decomposing a passed assert chain -/

theorem validate_cauchy_inputs_components
    (N dom bcs bf mp ndd ndl ndm : PyVal) (ce : Bool) (ua : PyVal)
    (h : validate_cauchy_inputs N dom bcs bf mp ndd ndl ndm ce ua = true) :
    ndd.isFloat = true ∧ ndl.isFloat = true ∧ ndm.isFloat = true
      ∧ mp.isTuple = true ∧ mp.entries.length = 2 := by
  simp only [validate_cauchy_inputs, Bool.and_eq_true, beq_iff_eq] at h
  tauto

theorem validate_gradient_inputs_components
    (N dom bcs bf mp ndd ndl ndm : PyVal) (ce : Bool) (ua : PyVal)
    (h : validate_gradient_inputs N dom bcs bf mp ndd ndl ndm ce ua = true) :
    ndd.isFloat = true ∧ ndl.isFloat = true ∧ ndm.isFloat = true
      ∧ mp.isTuple = true ∧ mp.entries.length = 7 := by
  simp only [validate_gradient_inputs, Bool.and_eq_true, beq_iff_eq] at h
  tauto

/-! ## Claim C3 -/

/-- C3: with nonhomogeneous boundary data, the solve uses the boundary-dof
field (all free coefficients zero, supplied by `set_boundary_dofs`), adds to
the right-hand side the negated action of the boundary-block operator on that
field, solves the homogeneous block system (the operator list with the
boundary matrices extracted) against that sum, and adds the boundary field
back; and both solvers delegate to exactly this step, returning the
`nondim_disp`-scaled result. -/
theorem inhomogeneous_solve_spec {Mat F : Type} [AddCommGroup F] [Module Rat F]
    (extract : List Mat → List Mat × List Mat)
    (bsolve bmvec : List Mat → F → F) (bdofs : F)
    (matrices : List Mat) (b : F)
    (cc : Collaborator CauchyTerm F) (gc : Collaborator GradTerm F)
    (N dom bcs bf mp2 mp7 ndd ndl ndm : PyVal) (ce : Bool) (ua : PyVal)
    (hmv : ∀ mats x, bmvec mats (-x) = -(bmvec mats x))
    (hvC : validate_cauchy_inputs N dom bcs bf mp2 ndd ndl ndm ce ua = true)
    (hvG : validate_gradient_inputs N dom bcs bf mp7 ndd ndl ndm ce ua = true)
    (hnC : nonhomogeneous_bcs cc.bases = true)
    (hnG : nonhomogeneous_bcs gc.bases = true) :
    solve_linear_system extract bsolve bmvec bdofs matrices b true
        = bsolve (extract matrices).2
            (b + -(bmvec (extract matrices).1 bdofs)) + bdofs
    ∧ solve_cauchy_elasticity cc N dom bcs bf mp2 ndd ndl ndm ce ua
        = Except.ok (ndd.toRat • solve_linear_system cc.extract_bc_matrices
            cc.block_solve cc.block_matvec cc.boundary_dofs_field
            (assemble_cauchy
              ((mp2.entries.getD 0 PyVal.pynone).toRat / ndm.toRat)
              ((mp2.entries.getD 1 PyVal.pynone).toRat / ndm.toRat)
              dom.entries.length (only_dirichlet_bcs_cauchy cc.bases))
            cc.rhs true)
    ∧ solve_gradient_elasticity gc N dom bcs bf mp7 ndd ndl ndm ce ua
        = Except.ok (ndd.toRat • solve_linear_system gc.extract_bc_matrices
            gc.block_solve gc.block_matvec gc.boundary_dofs_field
            (assemble_gradient
              ((mp7.entries.getD 0 PyVal.pynone).toRat / ndm.toRat)
              ((mp7.entries.getD 1 PyVal.pynone).toRat / ndm.toRat)
              ((mp7.entries.getD 2 PyVal.pynone).toRat / ndm.toRat / ndl.toRat ^ 2)
              ((mp7.entries.getD 3 PyVal.pynone).toRat / ndm.toRat / ndl.toRat ^ 2)
              ((mp7.entries.getD 4 PyVal.pynone).toRat / ndm.toRat / ndl.toRat ^ 2)
              ((mp7.entries.getD 5 PyVal.pynone).toRat / ndm.toRat / ndl.toRat ^ 2)
              ((mp7.entries.getD 6 PyVal.pynone).toRat / ndm.toRat / ndl.toRat ^ 2)
              dom.entries.length (only_dirichlet_bcs_gradient gc.bases))
            gc.rhs true) := by
  refine ⟨?_, ?_, ?_⟩
  · simp [solve_linear_system, hmv]
  · simp [solve_cauchy_elasticity, hvC, hnC]
  · simp [solve_gradient_elasticity, hvG, hnG]

/-- Witness for C3 at a fully concrete instantiation (coefficients in `ℚ`,
identity-style collaborator operations, one nonhomogeneous Dirichlet basis). -/
theorem inhomogeneous_solve_spec_witness :
    solve_linear_system
        (fun (m : List CauchyTerm) => ([], m)) (fun _ x => x) (fun _ x => x)
        (5 : Rat) [] 3 true
      = (fun (_ : List CauchyTerm) (x : Rat) => x) ([] : List CauchyTerm)
          ((3 : Rat) + -((fun (_ : List CauchyTerm) (x : Rat) => x) [] 5)) + 5
    ∧ solve_cauchy_elasticity
        (Collaborator.mk [[⟨BasisKind.shenDirichlet, true⟩]] (3 : Rat)
          (fun m => ([], m)) (fun _ x => x) (fun _ x => x) 5)
        (PyVal.int 4)
        (PyVal.tuple [PyVal.tuple [PyVal.float 0, PyVal.float 1]])
        (PyVal.tuple []) (PyVal.tuple [])
        (PyVal.tuple [PyVal.float 2, PyVal.float 3])
        (PyVal.float 1) (PyVal.float 1) (PyVal.float 1) false PyVal.pynone
      = Except.ok ((PyVal.float 1).toRat • solve_linear_system
          (fun m => ([], m)) (fun _ x => x) (fun _ x => x) (5 : Rat)
          (assemble_cauchy
            (((PyVal.tuple [PyVal.float 2, PyVal.float 3]).entries.getD 0
                PyVal.pynone).toRat / (PyVal.float 1).toRat)
            (((PyVal.tuple [PyVal.float 2, PyVal.float 3]).entries.getD 1
                PyVal.pynone).toRat / (PyVal.float 1).toRat)
            (PyVal.tuple [PyVal.tuple [PyVal.float 0,
                PyVal.float 1]]).entries.length
            (only_dirichlet_bcs_cauchy [[⟨BasisKind.shenDirichlet, true⟩]]))
          3 true)
    ∧ solve_gradient_elasticity
        (Collaborator.mk [[⟨BasisKind.shenBiharmonic, true⟩]] (3 : Rat)
          (fun m => ([], m)) (fun _ x => x) (fun _ x => x) 5)
        (PyVal.int 4)
        (PyVal.tuple [PyVal.tuple [PyVal.float 0, PyVal.float 1]])
        (PyVal.tuple []) (PyVal.tuple [])
        (PyVal.tuple [PyVal.float 2, PyVal.float 3, PyVal.float 1,
          PyVal.float 1, PyVal.float 1, PyVal.float 1, PyVal.float 1])
        (PyVal.float 1) (PyVal.float 1) (PyVal.float 1) false PyVal.pynone
      = Except.ok ((PyVal.float 1).toRat • solve_linear_system
          (fun m => ([], m)) (fun _ x => x) (fun _ x => x) (5 : Rat)
          (assemble_gradient
            (((PyVal.tuple [PyVal.float 2, PyVal.float 3, PyVal.float 1,
                PyVal.float 1, PyVal.float 1, PyVal.float 1,
                PyVal.float 1]).entries.getD 0 PyVal.pynone).toRat
              / (PyVal.float 1).toRat)
            (((PyVal.tuple [PyVal.float 2, PyVal.float 3, PyVal.float 1,
                PyVal.float 1, PyVal.float 1, PyVal.float 1,
                PyVal.float 1]).entries.getD 1 PyVal.pynone).toRat
              / (PyVal.float 1).toRat)
            (((PyVal.tuple [PyVal.float 2, PyVal.float 3, PyVal.float 1,
                PyVal.float 1, PyVal.float 1, PyVal.float 1,
                PyVal.float 1]).entries.getD 2 PyVal.pynone).toRat
              / (PyVal.float 1).toRat / (PyVal.float 1).toRat ^ 2)
            (((PyVal.tuple [PyVal.float 2, PyVal.float 3, PyVal.float 1,
                PyVal.float 1, PyVal.float 1, PyVal.float 1,
                PyVal.float 1]).entries.getD 3 PyVal.pynone).toRat
              / (PyVal.float 1).toRat / (PyVal.float 1).toRat ^ 2)
            (((PyVal.tuple [PyVal.float 2, PyVal.float 3, PyVal.float 1,
                PyVal.float 1, PyVal.float 1, PyVal.float 1,
                PyVal.float 1]).entries.getD 4 PyVal.pynone).toRat
              / (PyVal.float 1).toRat / (PyVal.float 1).toRat ^ 2)
            (((PyVal.tuple [PyVal.float 2, PyVal.float 3, PyVal.float 1,
                PyVal.float 1, PyVal.float 1, PyVal.float 1,
                PyVal.float 1]).entries.getD 5 PyVal.pynone).toRat
              / (PyVal.float 1).toRat / (PyVal.float 1).toRat ^ 2)
            (((PyVal.tuple [PyVal.float 2, PyVal.float 3, PyVal.float 1,
                PyVal.float 1, PyVal.float 1, PyVal.float 1,
                PyVal.float 1]).entries.getD 6 PyVal.pynone).toRat
              / (PyVal.float 1).toRat / (PyVal.float 1).toRat ^ 2)
            (PyVal.tuple [PyVal.tuple [PyVal.float 0,
                PyVal.float 1]]).entries.length
            (only_dirichlet_bcs_gradient [[⟨BasisKind.shenBiharmonic, true⟩]]))
          3 true) :=
  inhomogeneous_solve_spec (fun m => ([], m)) (fun _ x => x) (fun _ x => x)
    5 [] 3
    (Collaborator.mk [[⟨BasisKind.shenDirichlet, true⟩]] 3
      (fun m => ([], m)) (fun _ x => x) (fun _ x => x) 5)
    (Collaborator.mk [[⟨BasisKind.shenBiharmonic, true⟩]] 3
      (fun m => ([], m)) (fun _ x => x) (fun _ x => x) 5)
    (PyVal.int 4)
    (PyVal.tuple [PyVal.tuple [PyVal.float 0, PyVal.float 1]])
    (PyVal.tuple []) (PyVal.tuple [])
    (PyVal.tuple [PyVal.float 2, PyVal.float 3])
    (PyVal.tuple [PyVal.float 2, PyVal.float 3, PyVal.float 1, PyVal.float 1,
      PyVal.float 1, PyVal.float 1, PyVal.float 1])
    (PyVal.float 1) (PyVal.float 1) (PyVal.float 1) false PyVal.pynone
    (fun _ _ => rfl) (by decide) (by decide) (by decide) (by decide)

/-! ## Claim C8 -/

/-- C8: a `material_parameters` argument that is not a tuple of length
exactly 2 (Cauchy) resp. 7 (gradient) makes the solver fail with an
`AssertionError` before any nondimensionalization, space construction, or
assembly is reached (the embedded solvers produce their operator list and
solve result only in the branch where the whole assert chain has passed). -/
theorem material_param_length_spec {F : Type} [AddCommGroup F] [Module Rat F]
    (cc : Collaborator CauchyTerm F) (gc : Collaborator GradTerm F)
    (N dom bcs bf mp2 mp7 ndd ndl ndm : PyVal) (ce : Bool) (ua : PyVal) :
    (¬(mp2.isTuple = true ∧ mp2.entries.length = 2) →
      solve_cauchy_elasticity cc N dom bcs bf mp2 ndd ndl ndm ce ua
        = Except.error "AssertionError")
    ∧ (¬(mp7.isTuple = true ∧ mp7.entries.length = 7) →
      solve_gradient_elasticity gc N dom bcs bf mp7 ndd ndl ndm ce ua
        = Except.error "AssertionError") := by
  constructor
  · intro h
    have hv : ¬(validate_cauchy_inputs N dom bcs bf mp2 ndd ndl ndm ce ua
        = true) := fun hv => h
      ⟨(validate_cauchy_inputs_components N dom bcs bf mp2 ndd ndl ndm ce ua
          hv).2.2.2.1,
       (validate_cauchy_inputs_components N dom bcs bf mp2 ndd ndl ndm ce ua
          hv).2.2.2.2⟩
    rw [solve_cauchy_elasticity, if_neg hv]
  · intro h
    have hv : ¬(validate_gradient_inputs N dom bcs bf mp7 ndd ndl ndm ce ua
        = true) := fun hv => h
      ⟨(validate_gradient_inputs_components N dom bcs bf mp7 ndd ndl ndm ce ua
          hv).2.2.2.1,
       (validate_gradient_inputs_components N dom bcs bf mp7 ndd ndl ndm ce ua
          hv).2.2.2.2⟩
    rw [solve_gradient_elasticity, if_neg hv]

/-- Witness for C8: a length-1 tuple and a length-2 tuple passed where
lengths 2 and 7 are required. -/
theorem material_param_length_spec_witness :
    solve_cauchy_elasticity
        (Collaborator.mk [] (0 : Rat) (fun m => ([], m)) (fun _ x => x)
          (fun _ x => x) 0)
        (PyVal.int 4) (PyVal.tuple []) (PyVal.tuple []) (PyVal.tuple [])
        (PyVal.tuple [PyVal.float 1]) (PyVal.float 1) (PyVal.float 1)
        (PyVal.float 1) false PyVal.pynone
      = Except.error "AssertionError"
    ∧ solve_gradient_elasticity
        (Collaborator.mk [] (0 : Rat) (fun m => ([], m)) (fun _ x => x)
          (fun _ x => x) 0)
        (PyVal.int 4) (PyVal.tuple []) (PyVal.tuple []) (PyVal.tuple [])
        (PyVal.tuple [PyVal.float 1, PyVal.float 1]) (PyVal.float 1)
        (PyVal.float 1) (PyVal.float 1) false PyVal.pynone
      = Except.error "AssertionError" :=
  ⟨(material_param_length_spec
      (Collaborator.mk [] (0 : Rat) (fun m => ([], m)) (fun _ x => x)
        (fun _ x => x) 0)
      (Collaborator.mk [] (0 : Rat) (fun m => ([], m)) (fun _ x => x)
        (fun _ x => x) 0)
      (PyVal.int 4) (PyVal.tuple []) (PyVal.tuple []) (PyVal.tuple [])
      (PyVal.tuple [PyVal.float 1])
      (PyVal.tuple [PyVal.float 1, PyVal.float 1]) (PyVal.float 1)
      (PyVal.float 1) (PyVal.float 1) false PyVal.pynone).1 (by decide),
   (material_param_length_spec
      (Collaborator.mk [] (0 : Rat) (fun m => ([], m)) (fun _ x => x)
        (fun _ x => x) 0)
      (Collaborator.mk [] (0 : Rat) (fun m => ([], m)) (fun _ x => x)
        (fun _ x => x) 0)
      (PyVal.int 4) (PyVal.tuple []) (PyVal.tuple []) (PyVal.tuple [])
      (PyVal.tuple [PyVal.float 1])
      (PyVal.tuple [PyVal.float 1, PyVal.float 1]) (PyVal.float 1)
      (PyVal.float 1) (PyVal.float 1) false PyVal.pynone).2 (by decide)⟩

/-! ## Claim C9 -/

/-- C9: any non-float entry of `material_parameters` (e.g. the int `1`
instead of `1.0`) makes `cauchy_stresses` and `hyper_stresses` fail their
assert chain, and any non-float `nondim_disp`, `nondim_length` or
`nondim_mat_param` makes both solvers fail theirs. -/
theorem float_assert_spec {R S F : Type} [AddCommGroup R] [Module Rat R]
    [AddCommGroup F] [Module Rat F]
    (ops : FieldOps R S) (u_space : S) (u : Nat → R) (dim : Nat)
    (cc : Collaborator CauchyTerm F) (gc : Collaborator GradTerm F)
    (mp2 mp5 u_py N dom bcs bf mpC mpG ndd ndl ndm : PyVal) (ce : Bool)
    (ua : PyVal) :
    ((∃ e ∈ mp2.entries, e.isFloat = false) →
      cauchy_stresses_checked ops u_space u dim mp2 u_py
        = Except.error "AssertionError")
    ∧ ((∃ e ∈ mp5.entries, e.isFloat = false) →
      hyper_stresses_checked ops u_space u dim mp5 u_py
        = Except.error "AssertionError")
    ∧ ((ndd.isFloat = false ∨ ndl.isFloat = false ∨ ndm.isFloat = false) →
      solve_cauchy_elasticity cc N dom bcs bf mpC ndd ndl ndm ce ua
          = Except.error "AssertionError"
        ∧ solve_gradient_elasticity gc N dom bcs bf mpG ndd ndl ndm ce ua
          = Except.error "AssertionError") := by
  refine ⟨?_, ?_, ?_⟩
  · rintro ⟨e, he, hef⟩
    have hall : mp2.entries.all (fun v => v.isFloat) = false := by
      rw [List.all_eq_false]
      exact ⟨e, he, by simp [hef]⟩
    have hcond : ¬((mp2.isTuple && mp2.entries.all (fun v => v.isFloat)
        && (mp2.entries.length == 2) && u_py.isFunction) = true) := by
      simp [hall]
    rw [cauchy_stresses_checked, if_neg hcond]
  · rintro ⟨e, he, hef⟩
    have hall : mp5.entries.all (fun v => v.isFloat) = false := by
      rw [List.all_eq_false]
      exact ⟨e, he, by simp [hef]⟩
    have hcond : ¬((mp5.isTuple && mp5.entries.all (fun v => v.isFloat)
        && (mp5.entries.length == 5) && u_py.isFunction) = true) := by
      simp [hall]
    rw [hyper_stresses_checked, if_neg hcond]
  · intro hor
    constructor
    · have hv : ¬(validate_cauchy_inputs N dom bcs bf mpC ndd ndl ndm ce ua
          = true) := by
        intro hv
        have hc := validate_cauchy_inputs_components N dom bcs bf mpC ndd ndl
          ndm ce ua hv
        rcases hor with h | h | h
        · rw [h] at hc; exact absurd hc.1 (by simp)
        · rw [h] at hc; exact absurd hc.2.1 (by simp)
        · rw [h] at hc; exact absurd hc.2.2.1 (by simp)
      rw [solve_cauchy_elasticity, if_neg hv]
    · have hv : ¬(validate_gradient_inputs N dom bcs bf mpG ndd ndl ndm ce ua
          = true) := by
        intro hv
        have hc := validate_gradient_inputs_components N dom bcs bf mpG ndd
          ndl ndm ce ua hv
        rcases hor with h | h | h
        · rw [h] at hc; exact absurd hc.1 (by simp)
        · rw [h] at hc; exact absurd hc.2.1 (by simp)
        · rw [h] at hc; exact absurd hc.2.2.1 (by simp)
      rw [solve_gradient_elasticity, if_neg hv]

/-- Witness for C9: integer-valued material parameters `(1, 1.0)` and an
integer `nondim_disp` are rejected. -/
theorem float_assert_spec_witness :
    cauchy_stresses_checked
        (FieldOps.mk (fun (f : Rat) _ => f) (fun f _ => f) (fun f _ => f)
          (id : Bool → Bool)) false (fun _ => (0 : Rat)) 2
        (PyVal.tuple [PyVal.int 1, PyVal.float 1]) (PyVal.obj "Function")
      = Except.error "AssertionError"
    ∧ hyper_stresses_checked
        (FieldOps.mk (fun (f : Rat) _ => f) (fun f _ => f) (fun f _ => f)
          (id : Bool → Bool)) false (fun _ => (0 : Rat)) 2
        (PyVal.tuple [PyVal.int 1, PyVal.float 1, PyVal.float 1,
          PyVal.float 1, PyVal.float 1]) (PyVal.obj "Function")
      = Except.error "AssertionError"
    ∧ (solve_cauchy_elasticity
        (Collaborator.mk [] (0 : Rat) (fun m => ([], m)) (fun _ x => x)
          (fun _ x => x) 0)
        (PyVal.int 4) (PyVal.tuple []) (PyVal.tuple []) (PyVal.tuple [])
        (PyVal.tuple [PyVal.float 1, PyVal.float 1]) (PyVal.int 1)
        (PyVal.float 1) (PyVal.float 1) false PyVal.pynone
        = Except.error "AssertionError"
      ∧ solve_gradient_elasticity
        (Collaborator.mk [] (0 : Rat) (fun m => ([], m)) (fun _ x => x)
          (fun _ x => x) 0)
        (PyVal.int 4) (PyVal.tuple []) (PyVal.tuple []) (PyVal.tuple [])
        (PyVal.tuple [PyVal.float 1, PyVal.float 1]) (PyVal.int 1)
        (PyVal.float 1) (PyVal.float 1) false PyVal.pynone
        = Except.error "AssertionError") :=
  ⟨(float_assert_spec
      (FieldOps.mk (fun (f : Rat) _ => f) (fun f _ => f) (fun f _ => f)
        (id : Bool → Bool)) false (fun _ => (0 : Rat)) 2
      (Collaborator.mk [] (0 : Rat) (fun m => ([], m)) (fun _ x => x)
        (fun _ x => x) 0)
      (Collaborator.mk [] (0 : Rat) (fun m => ([], m)) (fun _ x => x)
        (fun _ x => x) 0)
      (PyVal.tuple [PyVal.int 1, PyVal.float 1])
      (PyVal.tuple [PyVal.int 1, PyVal.float 1, PyVal.float 1, PyVal.float 1,
        PyVal.float 1])
      (PyVal.obj "Function") (PyVal.int 4) (PyVal.tuple []) (PyVal.tuple [])
      (PyVal.tuple []) (PyVal.tuple [PyVal.float 1, PyVal.float 1])
      (PyVal.tuple [PyVal.float 1, PyVal.float 1]) (PyVal.int 1)
      (PyVal.float 1) (PyVal.float 1) false PyVal.pynone).1
      ⟨PyVal.int 1, by simp [PyVal.entries], rfl⟩,
   (float_assert_spec
      (FieldOps.mk (fun (f : Rat) _ => f) (fun f _ => f) (fun f _ => f)
        (id : Bool → Bool)) false (fun _ => (0 : Rat)) 2
      (Collaborator.mk [] (0 : Rat) (fun m => ([], m)) (fun _ x => x)
        (fun _ x => x) 0)
      (Collaborator.mk [] (0 : Rat) (fun m => ([], m)) (fun _ x => x)
        (fun _ x => x) 0)
      (PyVal.tuple [PyVal.int 1, PyVal.float 1])
      (PyVal.tuple [PyVal.int 1, PyVal.float 1, PyVal.float 1, PyVal.float 1,
        PyVal.float 1])
      (PyVal.obj "Function") (PyVal.int 4) (PyVal.tuple []) (PyVal.tuple [])
      (PyVal.tuple []) (PyVal.tuple [PyVal.float 1, PyVal.float 1])
      (PyVal.tuple [PyVal.float 1, PyVal.float 1]) (PyVal.int 1)
      (PyVal.float 1) (PyVal.float 1) false PyVal.pynone).2.1
      ⟨PyVal.int 1, by simp [PyVal.entries], rfl⟩,
   (float_assert_spec
      (FieldOps.mk (fun (f : Rat) _ => f) (fun f _ => f) (fun f _ => f)
        (id : Bool → Bool)) false (fun _ => (0 : Rat)) 2
      (Collaborator.mk [] (0 : Rat) (fun m => ([], m)) (fun _ x => x)
        (fun _ x => x) 0)
      (Collaborator.mk [] (0 : Rat) (fun m => ([], m)) (fun _ x => x)
        (fun _ x => x) 0)
      (PyVal.tuple [PyVal.int 1, PyVal.float 1])
      (PyVal.tuple [PyVal.int 1, PyVal.float 1, PyVal.float 1, PyVal.float 1,
        PyVal.float 1])
      (PyVal.obj "Function") (PyVal.int 4) (PyVal.tuple []) (PyVal.tuple [])
      (PyVal.tuple []) (PyVal.tuple [PyVal.float 1, PyVal.float 1])
      (PyVal.tuple [PyVal.float 1, PyVal.float 1]) (PyVal.int 1)
      (PyVal.float 1) (PyVal.float 1) false PyVal.pynone).2.2
      (Or.inl rfl)⟩

/-! ## Claim C10 -/

/-- C10: the no-bc companion vector space `V_none = VectorSpace([T_none,
T_none])` in both solvers, and the vector space of the traction returned by
`traction_vector_gradient`, are hard-coded with exactly two components,
whatever the number of axes `dim` (in particular for `dim = 3`). -/
theorem two_component_spaces_spec {S : Type} (dim : Nat) (t_space : S) :
    (v_none_spaces_cauchy dim).length = 2
    ∧ (v_none_spaces_gradient dim).length = 2
    ∧ (traction_vector_space t_space).length = 2 :=
  ⟨rfl, rfl, rfl⟩

/-! ## Claim C6 -/

/-- C6: for every displacement field and every `(lambd, mu)`, the Cauchy
stress tensor is symmetric, `T[i][j] = T[j][i]`, because it is built from
the symmetrized strain `E[i][j] = 0.5*(H[i][j]+H[j][i])` as
`T[i][j] = 2*mu*E[i][j] + lambd*trE*delta_ij`. -/
theorem cauchy_stress_symmetric {R S : Type} [AddCommGroup R] [Module Rat R]
    (ops : FieldOps R S) (u_space : S) (u : Nat → R) (lambd mu : Rat)
    (dim i j : Nat) :
    cauchy_T ops u_space u lambd mu dim i j
      = cauchy_T ops u_space u lambd mu dim j i
    ∧ cauchy_stresses_checked ops u_space u dim
        (PyVal.tuple [PyVal.float lambd, PyVal.float mu])
        (PyVal.obj "Function")
      = Except.ok (cauchy_T ops u_space u lambd mu dim) := by
  constructor
  · have hE : cauchy_E ops u_space u i j = cauchy_E ops u_space u j i := by
      simp [cauchy_E, add_comm]
    simp only [cauchy_T, hE]
    by_cases h : i = j
    · subst h
      rfl
    · rw [if_neg h, if_neg (fun hh => h hh.symm)]
  · rfl

/-! ## Claim C7 -/

/-- C7: `hyper_stresses` with all five higher-order constants equal to zero
returns an identically zero rank-3 tensor: every gated contribution is
skipped and each entry keeps its initial value `0.`. -/
theorem hyper_stress_zero_collapse {R S : Type} [AddCommGroup R]
    [Module Rat R] (ops : FieldOps R S) (u_space : S) (u : Nat → R)
    (dim i j k : Nat) :
    hyper_T ops u_space u 0 0 0 0 0 dim i j k = 0
    ∧ hyper_stresses_checked ops u_space u dim
        (PyVal.tuple [PyVal.float 0, PyVal.float 0, PyVal.float 0,
          PyVal.float 0, PyVal.float 0])
        (PyVal.obj "Function")
      = Except.ok (hyper_T ops u_space u 0 0 0 0 0 dim) := by
  constructor
  · simp [hyper_T]
  · rfl

/-! ## Claim C5 -/

/-- C5 counterexample: instrument the collaborator with a projection
operator returning `1` on the orthogonal companion space (`Bool.not
u_space`) and `0` on any other space.  The Laplacian field built by
`hyper_stresses` evaluates to `0`, not to the value `1` it would have if it
were projected onto the companion space (`hyper_stresses` uses
`u_hat[0].function_space()` without `.get_orthogonal()`, line 87). -/
theorem stress_projection_space_counterexample :
    hyper_Laplace
        (FieldOps.mk (fun (f : Rat) _ => f) (fun f _ => f)
          (fun _ s => if s then (1 : Rat) else 0) Bool.not)
        false (fun _ => (1 : Rat)) 1 0
      ≠ (fun (s : Bool) => if s then (1 : Rat) else 0)
          (cauchy_T_none Bool.not false) := by
  simp [hyper_Laplace, hyper_T_none, cauchy_T_none]

/-- C5 amended: `cauchy_stresses` projects the displacement gradient onto
the unconstrained companion space `get_orthogonal(u_space)`, but
`hyper_stresses` builds its Laplacian and gradient-of-divergence fields by
projection onto the displacement field's own function space `u_space`. -/
theorem stress_projection_space_spec {R S : Type} [AddCommGroup R]
    [Module Rat R] (ops : FieldOps R S) (u_space : S) (u : Nat → R)
    (dim i j : Nat) :
    cauchy_H ops u_space u i j
        = ops.proj (ops.dx (u i) j) (ops.get_orthogonal u_space)
    ∧ hyper_Laplace ops u_space u dim i
        = ((List.range dim).map fun l =>
            ops.proj (ops.dx2 (u i) l) u_space).sum
    ∧ hyper_GradDiv ops u_space u dim i
        = ((List.range dim).map fun l =>
            ops.proj (ops.dx (ops.dx (u l) l) i) u_space).sum :=
  ⟨rfl, rfl, rfl⟩

/-! ## Claim C4 -/

/-- C4 counterexample: fields are affine functions `a + b*x + c*y` encoded
as coefficient triples, with the exact derivative operator and the identity
projection; `T3[i][j][k] = x_k` and `n = (1, 0)`.  Then `divT3 = 2`,
`divnT3 = 1`, and the code's tangential term is `divtT3 = divT3 - divnT3
= 1 ≠ -1 = -divnT3`: `divtT3` starts from `divT3.copy()` (line 172), so it
is not the negation of the normal projection. -/
theorem traction_divt_counterexample :
    divtT3
        (FieldOps.mk
          (fun (f : Rat × Rat × Rat) ax =>
            if ax = 0 then (f.2.1, 0, 0)
            else if ax = 1 then (f.2.2, 0, 0) else (0, 0, 0))
          (fun _ _ => (0, 0, 0)) (fun f _ => f) (id : Bool → Bool)) true
        (fun _ _ k => if k = 0 then ((0, 1, 0) : Rat × Rat × Rat)
          else (0, 0, 1))
        (fun k => if k = 0 then (1 : Rat) else 0) 2 0 0
      ≠ -(divnT3
        (FieldOps.mk
          (fun (f : Rat × Rat × Rat) ax =>
            if ax = 0 then (f.2.1, 0, 0)
            else if ax = 1 then (f.2.2, 0, 0) else (0, 0, 0))
          (fun _ _ => (0, 0, 0)) (fun f _ => f) (id : Bool → Bool)) true
        (fun _ _ k => if k = 0 then ((0, 1, 0) : Rat × Rat × Rat)
          else (0, 0, 1))
        (fun k => if k = 0 then (1 : Rat) else 0) 2 0 0) := by
  rw [divtT3, foldl_sub_eq_sum (normal_contrib _ _ _ _ 0 0), divnT3,
    foldl_add_eq_sum (normal_contrib _ _ _ _ 0 0), zero_add]
  intro h
  rw [sub_eq_iff_eq_add, neg_add_cancel] at h
  simp [divT3, List.range_succ, Prod.ext_iff] at h

/-- C4 amended: in `traction_vector_gradient` the tangential divergence is
the total divergence minus its normal projection, `divtT3[i][j] =
divT3[i][j] - divnT3[i][j]` (not `-divnT3`), and the traction is
`t[i] = Σ_j (T2[i][j] - divnT3[i][j] - 2*divtT3[i][j]) * n[j]`. -/
theorem traction_divt_spec {R S : Type} [AddCommGroup R] [Module Rat R]
    (ops : FieldOps R S) (t_space : S) (T2 : Nat → Nat → R)
    (T3 : Nat → Nat → Nat → R) (n : Nat → Rat) (dim i j : Nat) :
    divtT3 ops t_space T3 n dim i j
        = divT3 ops t_space T3 dim i j - divnT3 ops t_space T3 n dim i j
    ∧ traction_vector_gradient ops t_space T2 T3 n dim i
        = ((List.range dim).map fun l =>
            (n l) • (T2 i l - divnT3 ops t_space T3 n dim i l
              - (2 : Rat) • divtT3 ops t_space T3 n dim i l)).sum := by
  constructor
  · have hn : divnT3 ops t_space T3 n dim i j
        = ((loop_pairs dim).map (normal_contrib ops t_space T3 n i j)).sum :=
      by rw [divnT3, foldl_add_eq_sum (normal_contrib ops t_space T3 n i j),
        zero_add]
    rw [divtT3, foldl_sub_eq_sum (normal_contrib ops t_space T3 n i j), hn]
  · rfl

end ShenfunElasticity
